import Mathlib

/-!
Verification of the SuppAI recommendation engine (`src/main.py`).

The file embeds the data model (`SurveyResponse`, `Recommendation`), the two
static tables (`CITATIONS`, `COUNTRY_DEFICIENCY`), the rule engine
`build_recommendations`, and the acknowledgement stub `send_email` as pure
Lean functions, and proves the specified properties about them.
-/

/-- Embeds the pydantic model `SurveyResponse`: nine integer ratings (each
constrained at validation time to the range [1,5]), a country string and an
optional email.  The ratings are modelled as `Int` (Python `int`); the
range constraint is the separate predicate `ValidSurvey`. -/
structure SurveyResponse where
  energy : Int
  gut_health : Int
  muscle_gain : Int
  stress : Int
  sleep : Int
  allergies : Int
  autoimmune : Int
  skin : Int
  digestion : Int
  country : String
  email : Option String
deriving DecidableEq, Repr

/-- Validation performed by pydantic on `SurveyResponse`: every rating field
carries `Field(ge=1, le=5)`. -/
def ValidSurvey (d : SurveyResponse) : Prop :=
  1 ≤ d.energy ∧ d.energy ≤ 5 ∧
  1 ≤ d.gut_health ∧ d.gut_health ≤ 5 ∧
  1 ≤ d.muscle_gain ∧ d.muscle_gain ≤ 5 ∧
  1 ≤ d.stress ∧ d.stress ≤ 5 ∧
  1 ≤ d.sleep ∧ d.sleep ≤ 5 ∧
  1 ≤ d.allergies ∧ d.allergies ≤ 5 ∧
  1 ≤ d.autoimmune ∧ d.autoimmune ≤ 5 ∧
  1 ≤ d.skin ∧ d.skin ≤ 5 ∧
  1 ≤ d.digestion ∧ d.digestion ≤ 5

instance (d : SurveyResponse) : Decidable (ValidSurvey d) := by
  unfold ValidSurvey; infer_instance

/-- Embeds the pydantic model `Recommendation`: a name (the de-duplication
key), a reason, an optional dosage and a list of citation strings. -/
structure Recommendation where
  name : String
  reason : String
  dosage : Option String
  sources : List String
deriving DecidableEq, Repr

/-- Embeds the static dict `CITATIONS` of `src/main.py` as a lookup from
supplement key to citation list.  The program only ever accesses keys that
are present in the dict, so the catch-all `[]` branch is never reached by
the engine. -/
def CITATIONS (key : String) : List String :=
  if key = "vitamin_d" then
    ["Harvard T.H. Chan School of Public Health – Vitamin D and Health",
     "University of Cambridge – Vitamin D and immune modulation"]
  else if key = "creatine" then
    ["University of Nottingham – Creatine and muscle performance",
     "Australian Institute of Sport – Creatine evidence"]
  else if key = "probiotic" then
    ["Johns Hopkins – Gut microbiome and probiotics",
     "Stanford Medicine – Probiotics in GI health"]
  else if key = "magnesium" then
    ["NIH ODS – Magnesium and sleep quality",
     "UC Berkeley – Stress and magnesium relationship"]
  else if key = "omega_3" then
    ["Harvard – Omega-3 and cardiovascular/skin benefits"]
  else if key = "quercetin" then
    ["NC State University – Quercetin and allergies"]
  else if key = "zinc" then
    ["University of Florida – Zinc and skin health"]
  else if key = "ashwagandha" then
    ["University of Michigan – Adaptogens for stress"]
  else []

/-- Embeds the static dict `COUNTRY_DEFICIENCY` of `src/main.py`;
`COUNTRY_DEFICIENCY c` models the Python `COUNTRY_DEFICIENCY.get(c)`,
returning `none` for absent keys. -/
def COUNTRY_DEFICIENCY (country : String) : Option String :=
  if country = "uk" then some "vitamin_d"
  else if country = "ireland" then some "vitamin_d"
  else if country = "canada" then some "vitamin_d"
  else if country = "sweden" then some "vitamin_d"
  else if country = "norway" then some "vitamin_d"
  else none

/-- Embeds Python `str.lower()` as applied to `data.country`
(src/main.py line 145): character-wise lowercasing.  The country names in
`COUNTRY_DEFICIENCY` are plain ASCII, for which `Char.toLower` agrees with
Python's lowercasing. -/
def pyLower (s : String) : String := ⟨s.data.map Char.toLower⟩

/-- Recommendation record appended when `data.energy >= 4` (src/main.py lines 88-94). -/
def magnesiumRec : Recommendation :=
  { name := "Magnesium Glycinate"
    reason := "Supports cellular energy and relaxation; often low in modern diets."
    dosage := some "200–400 mg in the evening"
    sources := CITATIONS "magnesium" }

/-- Recommendation record appended when `data.muscle_gain >= 3` (lines 96-102). -/
def creatineRec : Recommendation :=
  { name := "Creatine Monohydrate"
    reason := "Improves high‑intensity performance and lean mass in numerous RCTs."
    dosage := some "3–5 g daily"
    sources := CITATIONS "creatine" }

/-- Recommendation record appended when `data.gut_health >= 3 or data.digestion >= 3` (lines 104-110). -/
def probioticRec : Recommendation :=
  { name := "Multi‑strain Probiotic"
    reason := "Helps balance gut microbiota and supports digestion."
    dosage := some "10–20B CFU daily"
    sources := CITATIONS "probiotic" }

/-- Recommendation record appended when `data.stress >= 3 or data.sleep >= 3` (lines 112-118). -/
def ashwagandhaRec : Recommendation :=
  { name := "Ashwagandha (KSM‑66/Sensoril)"
    reason := "Adaptogen studied for perceived stress and sleep quality."
    dosage := some "300–600 mg daily"
    sources := CITATIONS "ashwagandha" }

/-- Recommendation record appended when `data.skin >= 3 or data.allergies >= 3` (lines 120-126). -/
def omega3Rec : Recommendation :=
  { name := "Omega‑3 (EPA/DHA)"
    reason := "Anti‑inflammatory support with benefits for skin barrier and allergies."
    dosage := some "1–2 g combined EPA/DHA daily"
    sources := CITATIONS "omega_3" }

/-- Recommendation record appended when `data.allergies >= 4` (lines 128-134). -/
def quercetinRec : Recommendation :=
  { name := "Quercetin"
    reason := "Bioflavonoid studied for mast‑cell stabilization and seasonal allergies."
    dosage := some "500–1000 mg daily with food"
    sources := CITATIONS "quercetin" }

/-- Recommendation record appended when `data.skin >= 4` (lines 136-142). -/
def zincRec : Recommendation :=
  { name := "Zinc Picolinate"
    reason := "Supports skin integrity and immune function; deficiency correlates with acne."
    dosage := some "15–30 mg daily with food"
    sources := CITATIONS "zinc" }

/-- Recommendation record appended when the lower-cased country maps to
"vitamin_d" in `COUNTRY_DEFICIENCY` (lines 144-151). -/
def vitaminD3Rec : Recommendation :=
  { name := "Vitamin D3 (cholecalciferol)"
    reason := "High latitude regions have limited UVB; D3 supports immunity and mood."
    dosage := some "1000–2000 IU daily"
    sources := CITATIONS "vitamin_d" }

/-- One step of the Python dict accumulation `unique[r.name] = r`: if a record
with the same name is already present its value is replaced in place (the
position of the key is kept), otherwise the record is appended at the end.
This is exactly the insertion-ordered semantics of a Python dict assignment. -/
def upsert (m : List Recommendation) (r : Recommendation) : List Recommendation :=
  if m.any (fun x => x.name == r.name) then
    m.map (fun x => if x.name == r.name then r else x)
  else
    m ++ [r]

/-- Embeds the de-duplication step of `build_recommendations`
(src/main.py lines 153-157): `unique = {}` followed by
`for r in recs: unique[r.name] = r` and `return list(unique.values())`. -/
def dedupByName (recs : List Recommendation) : List Recommendation :=
  recs.foldl upsert []

/-- The list `recs` accumulated by the conditional appends of
`build_recommendations` (src/main.py lines 86-151), written as the
concatenation of the conditional singleton appends in source order. -/
def recsList (data : SurveyResponse) : List Recommendation :=
  (if data.energy ≥ 4 then [magnesiumRec] else []) ++
  (if data.muscle_gain ≥ 3 then [creatineRec] else []) ++
  (if data.gut_health ≥ 3 ∨ data.digestion ≥ 3 then [probioticRec] else []) ++
  (if data.stress ≥ 3 ∨ data.sleep ≥ 3 then [ashwagandhaRec] else []) ++
  (if data.skin ≥ 3 ∨ data.allergies ≥ 3 then [omega3Rec] else []) ++
  (if data.allergies ≥ 4 then [quercetinRec] else []) ++
  (if data.skin ≥ 4 then [zincRec] else []) ++
  (if COUNTRY_DEFICIENCY (pyLower data.country) = some "vitamin_d" then [vitaminD3Rec] else [])

/-- Embeds `build_recommendations` (src/main.py lines 85-157): accumulate the
rule results in evaluation order, then keep the list unique by name via the
dict-based de-duplication. -/
def build_recommendations (data : SurveyResponse) : List Recommendation :=
  dedupByName (recsList data)

/-- Embeds the pydantic model `EmailPayload` (src/main.py lines 168-170). -/
structure EmailPayload where
  email : String
  recommendations : List Recommendation
deriving DecidableEq, Repr

/-- Shape of the JSON object returned by the `/send-email` handler. -/
structure SendEmailResponse where
  status : String
  email : String
  count : Nat
deriving DecidableEq, Repr

/-- Embeds the `/send-email` handler `send_email` (src/main.py lines 173-177):
a stub that sends nothing and acknowledges with a status token, the echoed
email and the number of recommendations. -/
def send_email (payload : EmailPayload) : SendEmailResponse :=
  { status := "queued"
    email := payload.email
    count := payload.recommendations.length }

/-- Modelled from the spec: the sequence of distinct names in "insertion
order of the first occurrence of each distinct name", used as the spec-side
description of the de-duplication order that `dedupByName` must realise. -/
def firstOccurrences (ns : List String) : List String :=
  ns.foldl (fun acc n => if n ∈ acc then acc else acc ++ [n]) []

/-- Survey record with all nine ratings equal to 1 and a given country. -/
def surveyAllOnes (c : String) : SurveyResponse :=
  { energy := 1, gut_health := 1, muscle_gain := 1, stress := 1, sleep := 1,
    allergies := 1, autoimmune := 1, skin := 1, digestion := 1,
    country := c, email := none }

/-- Concrete survey of the spec's third testable property:
skin = 5, allergies = 5, all other ratings = 1, country "France". -/
def surveyC5 : SurveyResponse :=
  { energy := 1, gut_health := 1, muscle_gain := 1, stress := 1, sleep := 1,
    allergies := 5, autoimmune := 1, skin := 5, digestion := 1,
    country := "France", email := none }

/-- Concrete survey with allergies = 4 and all other ratings = 1. -/
def surveyAllergies4 : SurveyResponse :=
  { energy := 1, gut_health := 1, muscle_gain := 1, stress := 1, sleep := 1,
    allergies := 4, autoimmune := 1, skin := 1, digestion := 1,
    country := "France", email := none }

/-- Concrete survey used to exercise the unused-field noninterference. -/
def surveyAutoOne : SurveyResponse :=
  { energy := 4, gut_health := 3, muscle_gain := 1, stress := 1, sleep := 1,
    allergies := 1, autoimmune := 1, skin := 1, digestion := 1,
    country := "UK", email := none }

/-- Same as `surveyAutoOne` except for the autoimmune rating and the email. -/
def surveyAutoFive : SurveyResponse :=
  { energy := 4, gut_health := 3, muscle_gain := 1, stress := 1, sleep := 1,
    allergies := 1, autoimmune := 5, skin := 1, digestion := 1,
    country := "UK", email := some "user@example.com" }

/-- Sample record used to exercise the de-duplication on a name collision. -/
def sampleRecA1 : Recommendation :=
  { name := "A", reason := "first", dosage := none, sources := [] }

/-- Later record with the same name as `sampleRecA1` but a different value. -/
def sampleRecA2 : Recommendation :=
  { name := "A", reason := "second", dosage := none, sources := [] }

/-- Sample record with a name distinct from `sampleRecA1`. -/
def sampleRecB : Recommendation :=
  { name := "B", reason := "other", dosage := none, sources := [] }

/-- Membership in a conditional singleton list. -/
lemma mem_ite_singleton {α : Type} (c : Prop) [Decidable c] (a r : α) :
    r ∈ (if c then [a] else []) ↔ c ∧ r = a := by
  split <;> simp_all

/-- Conditional singleton lists are sublists of the unconditional singleton. -/
lemma ite_singleton_sublist {α : Type} (c : Prop) [Decidable c] (a : α) :
    List.Sublist (if c then [a] else []) [a] := by
  split <;> simp

/-- Mapping over a conditional singleton list. -/
lemma map_ite_singleton {α β : Type} (f : α → β) (c : Prop) [Decidable c] (a : α) :
    (if c then [a] else []).map f = if c then [f a] else [] := by
  split <;> simp

/-- The eight rules append records with pairwise-distinct names, so the
accumulated `recs` list has pairwise-distinct names already before the
de-duplication step. -/
lemma recsList_names_nodup (d : SurveyResponse) :
    ((recsList d).map Recommendation.name).Nodup := by
  have h : List.Sublist ((recsList d).map Recommendation.name)
      ([magnesiumRec.name] ++ [creatineRec.name] ++ [probioticRec.name] ++
       [ashwagandhaRec.name] ++ [omega3Rec.name] ++ [quercetinRec.name] ++
       [zincRec.name] ++ [vitaminD3Rec.name]) := by
    unfold recsList
    simp only [List.map_append, map_ite_singleton]
    refine List.Sublist.append (List.Sublist.append (List.Sublist.append
      (List.Sublist.append (List.Sublist.append (List.Sublist.append
      (List.Sublist.append ?_ ?_) ?_) ?_) ?_) ?_) ?_) ?_
    all_goals exact ite_singleton_sublist _ _
  exact h.nodup (by decide)

/-- The dict accumulation processes a trailing element last. -/
lemma dedupByName_append_singleton (l : List Recommendation) (r : Recommendation) :
    dedupByName (l ++ [r]) = upsert (dedupByName l) r := by
  simp [dedupByName, List.foldl_append]

/-- On a list whose names are already pairwise distinct, the dict-based
de-duplication is the identity. -/
lemma dedupByName_eq_self {l : List Recommendation}
    (h : (l.map Recommendation.name).Nodup) : dedupByName l = l := by
  induction l using List.reverseRecOn with
  | nil => rfl
  | append_singleton l r ih =>
    rw [dedupByName_append_singleton]
    simp only [List.map_append, List.map_cons, List.map_nil] at h
    have hn := List.Nodup.of_append_left h
    have hd : r.name ∉ l.map Recommendation.name := by
      intro hmem
      exact (List.disjoint_of_nodup_append h) hmem (by simp)
    rw [ih hn, upsert]
    have hany : (l.any fun x => x.name == r.name) = false := by
      simp only [List.any_eq_false]
      intro x hx
      simp only [beq_iff_eq]
      intro hEq
      exact hd (hEq ▸ List.mem_map_of_mem Recommendation.name hx)
    simp [hany]

/-- The engine output equals the accumulated rule list: the current rule set
never produces a duplicate name, so the de-duplication pass is the identity. -/
lemma build_eq_recsList (d : SurveyResponse) :
    build_recommendations d = recsList d :=
  dedupByName_eq_self (recsList_names_nodup d)

/-- Characterisation of membership in the engine output as the disjunction of
the eight rule predicates in source order. -/
lemma mem_build_iff (d : SurveyResponse) (r : Recommendation) :
    r ∈ build_recommendations d ↔
      (d.energy ≥ 4 ∧ r = magnesiumRec) ∨
      (d.muscle_gain ≥ 3 ∧ r = creatineRec) ∨
      ((d.gut_health ≥ 3 ∨ d.digestion ≥ 3) ∧ r = probioticRec) ∨
      ((d.stress ≥ 3 ∨ d.sleep ≥ 3) ∧ r = ashwagandhaRec) ∨
      ((d.skin ≥ 3 ∨ d.allergies ≥ 3) ∧ r = omega3Rec) ∨
      (d.allergies ≥ 4 ∧ r = quercetinRec) ∨
      (d.skin ≥ 4 ∧ r = zincRec) ∨
      (COUNTRY_DEFICIENCY (pyLower d.country) = some "vitamin_d" ∧ r = vitaminD3Rec) := by
  rw [build_eq_recsList]
  unfold recsList
  simp only [List.mem_append, mem_ite_singleton, or_assoc]

/-- Magnesium Glycinate is recommended exactly when energy >= 4. -/
lemma magnesium_mem_iff (d : SurveyResponse) :
    magnesiumRec ∈ build_recommendations d ↔ d.energy ≥ 4 := by
  rw [mem_build_iff]; simp +decide

/-- Creatine Monohydrate is recommended exactly when muscle_gain >= 3. -/
lemma creatine_mem_iff (d : SurveyResponse) :
    creatineRec ∈ build_recommendations d ↔ d.muscle_gain ≥ 3 := by
  rw [mem_build_iff]; simp +decide

/-- The probiotic is recommended exactly when gut_health >= 3 or digestion >= 3. -/
lemma probiotic_mem_iff (d : SurveyResponse) :
    probioticRec ∈ build_recommendations d ↔ d.gut_health ≥ 3 ∨ d.digestion ≥ 3 := by
  rw [mem_build_iff]; simp +decide

/-- Ashwagandha is recommended exactly when stress >= 3 or sleep >= 3. -/
lemma ashwagandha_mem_iff (d : SurveyResponse) :
    ashwagandhaRec ∈ build_recommendations d ↔ d.stress ≥ 3 ∨ d.sleep ≥ 3 := by
  rw [mem_build_iff]; simp +decide

/-- Omega-3 is recommended exactly when skin >= 3 or allergies >= 3. -/
lemma omega3_mem_iff (d : SurveyResponse) :
    omega3Rec ∈ build_recommendations d ↔ d.skin ≥ 3 ∨ d.allergies ≥ 3 := by
  rw [mem_build_iff]; simp +decide

/-- Quercetin is recommended exactly when allergies >= 4. -/
lemma quercetin_mem_iff (d : SurveyResponse) :
    quercetinRec ∈ build_recommendations d ↔ d.allergies ≥ 4 := by
  rw [mem_build_iff]; simp +decide

/-- Zinc Picolinate is recommended exactly when skin >= 4. -/
lemma zinc_mem_iff (d : SurveyResponse) :
    zincRec ∈ build_recommendations d ↔ d.skin ≥ 4 := by
  rw [mem_build_iff]; simp +decide

/-- Vitamin D3 is recommended exactly when the lower-cased country maps to
"vitamin_d" in the country table. -/
lemma vitaminD3_mem_iff (d : SurveyResponse) :
    vitaminD3Rec ∈ build_recommendations d ↔
      COUNTRY_DEFICIENCY (pyLower d.country) = some "vitamin_d" := by
  rw [mem_build_iff]; simp +decide

/-- The country table maps to "vitamin_d" exactly on the five fixed
lower-cased country names. -/
lemma country_deficiency_vitamin_d_iff (s : String) :
    COUNTRY_DEFICIENCY s = some "vitamin_d" ↔
      s = "uk" ∨ s = "ireland" ∨ s = "canada" ∨ s = "sweden" ∨ s = "norway" := by
  unfold COUNTRY_DEFICIENCY
  split_ifs <;> simp_all

/-- Membership after folding the first-occurrence accumulator. -/
lemma mem_foldl_firstOcc (ns : List String) (acc : List String) (n : String) :
    n ∈ ns.foldl (fun acc m => if m ∈ acc then acc else acc ++ [m]) acc ↔
      n ∈ acc ∨ n ∈ ns := by
  induction ns generalizing acc with
  | nil => simp
  | cons m ns ih =>
    simp only [List.foldl_cons, ih, List.mem_cons]
    by_cases hm : m ∈ acc
    · simp only [hm, if_true]
      constructor
      · rintro (h | h)
        · exact Or.inl h
        · exact Or.inr (Or.inr h)
      · rintro (h | h | h)
        · exact Or.inl h
        · exact Or.inl (h ▸ hm)
        · exact Or.inr h
    · simp only [hm, if_false, List.mem_append, List.mem_singleton]
      tauto

/-- The first-occurrence sequence of a list extended on the right. -/
lemma firstOccurrences_concat (ns : List String) (n : String) :
    firstOccurrences (ns ++ [n]) =
      if n ∈ firstOccurrences ns then firstOccurrences ns
      else firstOccurrences ns ++ [n] := by
  simp [firstOccurrences, List.foldl_append]

/-- The first-occurrence sequence has the same members as the original list. -/
lemma mem_firstOccurrences (ns : List String) (n : String) :
    n ∈ firstOccurrences ns ↔ n ∈ ns := by
  simpa using mem_foldl_firstOcc ns [] n

/-- The names of the de-duplicated list are exactly the distinct names of the
input in order of first occurrence. -/
lemma dedupByName_names (l : List Recommendation) :
    (dedupByName l).map Recommendation.name =
      firstOccurrences (l.map Recommendation.name) := by
  induction l using List.reverseRecOn with
  | nil => rfl
  | append_singleton l r ih =>
    rw [dedupByName_append_singleton, List.map_append, List.map_singleton,
      firstOccurrences_concat, upsert]
    cases hany : (dedupByName l).any (fun x => x.name == r.name) with
    | true =>
      have hmem : r.name ∈ firstOccurrences (l.map Recommendation.name) := by
        rw [← ih]
        simp only [List.any_eq_true, beq_iff_eq] at hany
        obtain ⟨x, hx, hxe⟩ := hany
        exact hxe ▸ List.mem_map_of_mem Recommendation.name hx
      rw [if_pos hmem]
      simp only [hany, if_true, List.map_map]
      rw [← ih]
      apply List.map_congr_left
      intro x _
      by_cases hxe : (x.name == r.name) = true
      · simp only [Function.comp_apply, hxe, if_true]
        exact (beq_iff_eq.mp hxe).symm
      · simp only [Function.comp_apply, hxe]
        simp
    | false =>
      have hnmem : r.name ∉ firstOccurrences (l.map Recommendation.name) := by
        rw [← ih]
        intro hmem
        obtain ⟨x, hx, hxe⟩ := List.mem_map.mp hmem
        simp only [List.any_eq_false, beq_iff_eq] at hany
        exact hany x hx hxe
      rw [if_neg hnmem]
      simp [ih]

/-- Every record in the de-duplicated list is the last record of the input
carrying its name: the dict assignment overwrites on key collision. -/
lemma dedupByName_lastWins (l : List Recommendation) :
    ∀ r' ∈ dedupByName l,
      (l.filter fun x => x.name == r'.name).getLast? = some r' := by
  induction l using List.reverseRecOn with
  | nil => simp [dedupByName]
  | append_singleton l r ih =>
    intro r' hr'
    rw [dedupByName_append_singleton, upsert] at hr'
    rw [List.filter_append]
    cases hany : (dedupByName l).any (fun x => x.name == r.name) with
    | true =>
      simp only [hany, if_true] at hr'
      obtain ⟨x, hx, hrepl⟩ := List.mem_map.mp hr'
      by_cases hxe : (x.name == r.name) = true
      · have hr'eq : r' = r := by rw [← hrepl]; simp [hxe]
        subst hr'eq
        have hfil : List.filter (fun x => x.name == r'.name) [r'] = [r'] := by simp
        rw [hfil, List.getLast?_concat]
      · have hr'eq : r' = x := by rw [← hrepl]; simp [hxe]
        subst hr'eq
        have hne : r.name ≠ r'.name := fun h => hxe (beq_iff_eq.mpr h.symm)
        have hfil : List.filter (fun x => x.name == r'.name) [r] = [] := by
          simp [hne]
        rw [hfil, List.append_nil]
        exact ih r' hx
    | false =>
      simp only [hany, if_false] at hr'
      rcases List.mem_append.mp hr' with hmem | hmem
      · have hne : r.name ≠ r'.name := by
          intro h
          simp only [List.any_eq_false, beq_iff_eq] at hany
          exact hany r' hmem h.symm
        have hfil : List.filter (fun x => x.name == r'.name) [r] = [] := by
          simp [hne]
        rw [hfil, List.append_nil]
        exact ih r' hmem
      · have hr'eq : r' = r := by simpa using hmem
        subst hr'eq
        have hfil : List.filter (fun x => x.name == r'.name) [r'] = [r'] := by simp
        rw [hfil, List.getLast?_concat]

/-- Claim C1: for every validated survey, each of the eight recommendation
records is in the output of `build_recommendations` exactly when its rule
predicate holds (Vitamin D3 on the lower-cased country lying in the fixed
five-country set); every output record is one of the eight fixed records,
and each record carries the citation list of its supplement key from the
static citation table. -/
theorem C1_rule_membership (d : SurveyResponse) (_hv : ValidSurvey d) :
    (magnesiumRec ∈ build_recommendations d ↔ d.energy ≥ 4) ∧
    (creatineRec ∈ build_recommendations d ↔ d.muscle_gain ≥ 3) ∧
    (probioticRec ∈ build_recommendations d ↔ d.gut_health ≥ 3 ∨ d.digestion ≥ 3) ∧
    (ashwagandhaRec ∈ build_recommendations d ↔ d.stress ≥ 3 ∨ d.sleep ≥ 3) ∧
    (omega3Rec ∈ build_recommendations d ↔ d.skin ≥ 3 ∨ d.allergies ≥ 3) ∧
    (quercetinRec ∈ build_recommendations d ↔ d.allergies ≥ 4) ∧
    (zincRec ∈ build_recommendations d ↔ d.skin ≥ 4) ∧
    (vitaminD3Rec ∈ build_recommendations d ↔
      pyLower d.country ∈ ["uk", "ireland", "canada", "sweden", "norway"]) ∧
    (∀ r ∈ build_recommendations d,
      r ∈ [magnesiumRec, creatineRec, probioticRec, ashwagandhaRec,
           omega3Rec, quercetinRec, zincRec, vitaminD3Rec]) ∧
    magnesiumRec.sources = CITATIONS "magnesium" ∧
    creatineRec.sources = CITATIONS "creatine" ∧
    probioticRec.sources = CITATIONS "probiotic" ∧
    ashwagandhaRec.sources = CITATIONS "ashwagandha" ∧
    omega3Rec.sources = CITATIONS "omega_3" ∧
    quercetinRec.sources = CITATIONS "quercetin" ∧
    zincRec.sources = CITATIONS "zinc" ∧
    vitaminD3Rec.sources = CITATIONS "vitamin_d" := by
  refine ⟨magnesium_mem_iff d, creatine_mem_iff d, probiotic_mem_iff d,
    ashwagandha_mem_iff d, omega3_mem_iff d, quercetin_mem_iff d, zinc_mem_iff d,
    ?_, ?_, rfl, rfl, rfl, rfl, rfl, rfl, rfl, rfl⟩
  · rw [vitaminD3_mem_iff, country_deficiency_vitamin_d_iff]
    simp
  · intro r hr
    rw [mem_build_iff] at hr
    rcases hr with h | h | h | h | h | h | h | h <;> simp [h.2]

/-- Witness for C1 at a concrete validated survey. -/
theorem C1_rule_membership_witness :
    ValidSurvey surveyC5 ∧
      (magnesiumRec ∈ build_recommendations surveyC5 ↔ surveyC5.energy ≥ 4) :=
  ⟨by decide, (C1_rule_membership surveyC5 (by decide)).1⟩

/-- Claim C2: for every validated survey, the recommendation names in the
output of `build_recommendations` are pairwise distinct. -/
theorem C2_output_names_distinct (d : SurveyResponse) (_hv : ValidSurvey d) :
    ((build_recommendations d).map Recommendation.name).Nodup := by
  rw [build_eq_recsList]
  exact recsList_names_nodup d

/-- Witness for C2 at a concrete validated survey. -/
theorem C2_output_names_distinct_witness :
    ValidSurvey surveyC5 ∧
      ((build_recommendations surveyC5).map Recommendation.name).Nodup :=
  ⟨by decide, C2_output_names_distinct surveyC5 (by decide)⟩

/-- Claim C3: applied to any accumulated sequence of records, the dict-based
de-duplication returns the records in insertion order of the first occurrence
of each distinct name, and the value kept for each name is the last record of
the sequence carrying that name. -/
theorem C3_dedup_first_occurrence_last_wins (l : List Recommendation) :
    (dedupByName l).map Recommendation.name =
      firstOccurrences (l.map Recommendation.name) ∧
    ∀ r ∈ dedupByName l,
      (l.filter fun x => x.name == r.name).getLast? = some r :=
  ⟨dedupByName_names l, dedupByName_lastWins l⟩

/-- Witness for C3 on a concrete sequence with a name collision: the colliding
name keeps its first position while the later value wins. -/
theorem C3_dedup_first_occurrence_last_wins_witness :
    ((dedupByName [sampleRecA1, sampleRecB, sampleRecA2]).map Recommendation.name =
      firstOccurrences ([sampleRecA1, sampleRecB, sampleRecA2].map Recommendation.name)) ∧
    (([sampleRecA1, sampleRecB, sampleRecA2].filter
        fun x => x.name == sampleRecA2.name).getLast? = some sampleRecA2) :=
  ⟨(C3_dedup_first_occurrence_last_wins [sampleRecA1, sampleRecB, sampleRecA2]).1,
   (C3_dedup_first_occurrence_last_wins [sampleRecA1, sampleRecB, sampleRecA2]).2
     sampleRecA2 (by decide)⟩

/-- Claim C4: with all nine ratings equal to 1, any country lower-casing to
"uk" yields Vitamin D3 in the output, country "France" does not, and Vitamin
D3 membership is exactly case-insensitive matching against the fixed
five-country set. -/
theorem C4_country_case_insensitivity (d : SurveyResponse)
    (_h1 : d.energy = 1) (_h2 : d.gut_health = 1) (_h3 : d.muscle_gain = 1)
    (_h4 : d.stress = 1) (_h5 : d.sleep = 1) (_h6 : d.allergies = 1)
    (_h7 : d.autoimmune = 1) (_h8 : d.skin = 1) (_h9 : d.digestion = 1) :
    (pyLower d.country = "uk" → vitaminD3Rec ∈ build_recommendations d) ∧
    (d.country = "France" → vitaminD3Rec ∉ build_recommendations d) ∧
    (vitaminD3Rec ∈ build_recommendations d ↔
      pyLower d.country ∈ ["uk", "ireland", "canada", "sweden", "norway"]) := by
  have hiff : vitaminD3Rec ∈ build_recommendations d ↔
      pyLower d.country ∈ ["uk", "ireland", "canada", "sweden", "norway"] := by
    rw [vitaminD3_mem_iff, country_deficiency_vitamin_d_iff]
    simp
  refine ⟨?_, ?_, hiff⟩
  · intro hc
    rw [hiff, hc]
    simp
  · intro hc
    rw [hiff, hc]
    decide

/-- Witness for C4 at the concrete countries "Uk" and "France". -/
theorem C4_country_case_insensitivity_witness :
    vitaminD3Rec ∈ build_recommendations (surveyAllOnes "Uk") ∧
      vitaminD3Rec ∉ build_recommendations (surveyAllOnes "France") :=
  ⟨(C4_country_case_insensitivity (surveyAllOnes "Uk")
      rfl rfl rfl rfl rfl rfl rfl rfl rfl).1 (by decide),
   (C4_country_case_insensitivity (surveyAllOnes "France")
      rfl rfl rfl rfl rfl rfl rfl rfl rfl).2.1 rfl⟩

/-- Claim C5: for skin = 5, allergies = 5, all other ratings 1 and country
"France", the output consists of exactly the Omega-3, Quercetin and Zinc
Picolinate recommendations. -/
theorem C5_skin_allergies_france_exact (r : Recommendation) :
    r ∈ build_recommendations surveyC5 ↔
      r = omega3Rec ∨ r = quercetinRec ∨ r = zincRec := by
  have h : build_recommendations surveyC5 = [omega3Rec, quercetinRec, zincRec] := by
    decide
  rw [h]
  simp

/-- Claim C6: the engine is deterministic and referentially transparent; two
calls on equal inputs return equal outputs. -/
theorem C6_deterministic (d₁ d₂ : SurveyResponse) (h : d₁ = d₂) :
    build_recommendations d₁ = build_recommendations d₂ :=
  congrArg build_recommendations h

/-- Witness for C6 at a concrete input. -/
theorem C6_deterministic_witness :
    build_recommendations surveyC5 = build_recommendations surveyC5 :=
  C6_deterministic surveyC5 surveyC5 rfl

/-- Claim C7: the engine is total on its constrained domain; every validated
survey yields a result list (of at most the eight rule records). -/
theorem C7_total_on_valid_domain (d : SurveyResponse) (_hv : ValidSurvey d) :
    ∃ out : List Recommendation, build_recommendations d = out ∧ out.length ≤ 8 := by
  refine ⟨build_recommendations d, rfl, ?_⟩
  rw [build_eq_recsList]
  unfold recsList
  have e1 : (if d.energy ≥ 4 then [magnesiumRec] else []).length ≤ 1 := by
    split <;> simp
  have e2 : (if d.muscle_gain ≥ 3 then [creatineRec] else []).length ≤ 1 := by
    split <;> simp
  have e3 : (if d.gut_health ≥ 3 ∨ d.digestion ≥ 3 then [probioticRec] else []).length ≤ 1 := by
    split <;> simp
  have e4 : (if d.stress ≥ 3 ∨ d.sleep ≥ 3 then [ashwagandhaRec] else []).length ≤ 1 := by
    split <;> simp
  have e5 : (if d.skin ≥ 3 ∨ d.allergies ≥ 3 then [omega3Rec] else []).length ≤ 1 := by
    split <;> simp
  have e6 : (if d.allergies ≥ 4 then [quercetinRec] else []).length ≤ 1 := by
    split <;> simp
  have e7 : (if d.skin ≥ 4 then [zincRec] else []).length ≤ 1 := by
    split <;> simp
  have e8 : (if COUNTRY_DEFICIENCY (pyLower d.country) = some "vitamin_d"
      then [vitaminD3Rec] else []).length ≤ 1 := by
    split <;> simp
  simp only [List.length_append]
  omega

/-- Witness for C7 at a concrete validated survey. -/
theorem C7_total_on_valid_domain_witness :
    ValidSurvey surveyC5 ∧
      ∃ out : List Recommendation,
        build_recommendations surveyC5 = out ∧ out.length ≤ 8 :=
  ⟨by decide, C7_total_on_valid_domain surveyC5 (by decide)⟩

/-- Claim C8: the send-email stub sends nothing and returns the status token
"queued", the echoed input email, and the length of the input
recommendation list. -/
theorem C8_send_email_stub (p : EmailPayload) :
    (send_email p).status = "queued" ∧
    (send_email p).email = p.email ∧
    (send_email p).count = p.recommendations.length :=
  ⟨rfl, rfl, rfl⟩

/-- Claim C9: the autoimmune rating and the email field never influence the
output: two validated surveys agreeing on the other eight ratings and the
country produce identical outputs. -/
theorem C9_unused_fields_noninterference (d₁ d₂ : SurveyResponse)
    (_hv₁ : ValidSurvey d₁) (_hv₂ : ValidSurvey d₂)
    (he : d₁.energy = d₂.energy) (hg : d₁.gut_health = d₂.gut_health)
    (hm : d₁.muscle_gain = d₂.muscle_gain) (hst : d₁.stress = d₂.stress)
    (hsl : d₁.sleep = d₂.sleep) (hal : d₁.allergies = d₂.allergies)
    (hsk : d₁.skin = d₂.skin) (hdi : d₁.digestion = d₂.digestion)
    (hc : d₁.country = d₂.country) :
    build_recommendations d₁ = build_recommendations d₂ := by
  unfold build_recommendations recsList
  rw [he, hg, hm, hst, hsl, hal, hsk, hdi, hc]

/-- Witness for C9: two concrete surveys differing only in the autoimmune
rating and the email field yield the same output. -/
theorem C9_unused_fields_noninterference_witness :
    build_recommendations surveyAutoOne = build_recommendations surveyAutoFive :=
  C9_unused_fields_noninterference surveyAutoOne surveyAutoFive
    (by decide) (by decide) rfl rfl rfl rfl rfl rfl rfl rfl rfl

/-- Claim C10: whenever the output contains Quercetin or Zinc Picolinate it
also contains Omega-3, because each stronger threshold implies the Omega-3
predicate. -/
theorem C10_rule_subsumption (d : SurveyResponse) (_hv : ValidSurvey d)
    (h : quercetinRec ∈ build_recommendations d ∨
      zincRec ∈ build_recommendations d) :
    omega3Rec ∈ build_recommendations d := by
  rw [omega3_mem_iff]
  rcases h with h | h
  · rw [quercetin_mem_iff] at h
    right
    omega
  · rw [zinc_mem_iff] at h
    left
    omega

/-- Witness for C10 at a concrete survey with allergies = 4. -/
theorem C10_rule_subsumption_witness :
    ValidSurvey surveyAllergies4 ∧
      omega3Rec ∈ build_recommendations surveyAllergies4 :=
  ⟨by decide, C10_rule_subsumption surveyAllergies4 (by decide)
    (Or.inl (by decide))⟩
